import Mathlib

/-!
Shallow embedding of `src/model-stress.py` (class `HttpBenchmark`), an async
HTTP load-generation tool.  Pure data transformations become Lean functions;
the per-work-item statistics effect of `make_request` becomes an explicit
state-passing function on a `Stats` record; the nondeterministic network is an
explicit `NetResult` parameter; the asyncio semaphore discipline of
`run`/`make_request` becomes a small transition system.  Real-valued times are
modelled as rationals.
-/

namespace ModelStress

/-- Whitespace characters removed by Python's `str.strip()` with no argument
(ASCII subset: space, tab, LF, CR, VT, FF). -/
def isPyWhitespace (c : Char) : Bool :=
  c = ' ' || c = '\t' || c = '\n' || c = '\r' || c = '\x0B' || c = '\x0C'

/-- Python `line.strip()`: drop leading and trailing whitespace. -/
def pyStrip (s : String) : String :=
  String.mk (((s.data.dropWhile isPyWhitespace).reverse.dropWhile isPyWhitespace).reverse)

/-- Embedding of `HttpBenchmark.load_dataset` (lines 23-32) on a readable
file, given as its list of raw lines: the comprehension
`[line.strip() for line in f if line.strip()]` keeps the stripped form of
every line whose stripped form is non-empty (Python truthiness of a string),
in file order. -/
def load_dataset : List String → List String
  | [] => []
  | line :: rest =>
      let s := pyStrip line
      if s.isEmpty then load_dataset rest else s :: load_dataset rest

/-- Embedding of `HttpBenchmark.get_random_prompt` (lines 34-40).
`random.choice(self.data_pool)` draws a uniformly random index into the pool;
the random draw is modelled by the explicit `choice` parameter, reduced modulo
the pool length.  `if not self.data_pool: raise ValueError(...)` becomes the
`Except.error` branch, checked on every call. -/
def get_random_prompt (data_pool : List String) (choice : ℕ) : Except String String :=
  if h : data_pool = [] then
    Except.error "data pool is empty, check the dataset file"
  else
    Except.ok (data_pool.get ⟨choice % data_pool.length,
      Nat.mod_lt _ (List.length_pos.mpr h)⟩)

/-- Mutable statistics fields of `HttpBenchmark` (lines 16-19) together with
the progress-bar position (line 21, advanced at line 74).  All are zero at
construction. -/
structure Stats where
  success_count : ℕ
  failure_count : ℕ
  total_time : ℚ
  completed_requests : ℕ
  progress : ℕ
deriving DecidableEq

/-- Statistics at run start (lines 16-21): every counter zero. -/
def initStats : Stats := ⟨0, 0, 0, 0, 0⟩

/-- Outcome of the `await client.post(...)` call of one work item: either an
HTTP response with some status code, or an exception (connection error,
timeout, ...) raised by the call. -/
inductive NetResult where
  | response (status : ℕ)
  | netError
deriving DecidableEq

/-- Environment of one work item: the random draw used by the sampler, the
behaviour of the network for its single POST, and the elapsed monotonic time
between the item's start and end timestamps. -/
structure ItemEnv where
  choice : ℕ
  net : NetResult
  elapsed : ℚ
deriving DecidableEq

/-- Statistics effect of `HttpBenchmark.make_request` (lines 42-74) for one
work item.  The `try` body records `start_time`, samples a prompt (which may
raise on an empty pool), builds the payload, performs the POST (which may
raise), records `end_time`, then adds the elapsed time to `total_time`,
increments `completed_requests`, and increments `success_count` on status 200
and `failure_count` otherwise.  The `except` branch increments only
`failure_count`; the `finally` branch advances the progress bar by one in
every case.  Exceptions are consumed inside the function: its result type is
`Stats`, not an error type, so nothing propagates to the caller. -/
def make_request (data_pool : List String) (choice : ℕ) (net : NetResult)
    (elapsed : ℚ) (s : Stats) : Stats :=
  match get_random_prompt data_pool choice with
  | Except.error _ =>
      { s with failure_count := s.failure_count + 1, progress := s.progress + 1 }
  | Except.ok _ =>
      match net with
      | NetResult.netError =>
          { s with failure_count := s.failure_count + 1, progress := s.progress + 1 }
      | NetResult.response status =>
          if status = 200 then
            { s with total_time := s.total_time + elapsed,
                     completed_requests := s.completed_requests + 1,
                     success_count := s.success_count + 1,
                     progress := s.progress + 1 }
          else
            { s with total_time := s.total_time + elapsed,
                     completed_requests := s.completed_requests + 1,
                     failure_count := s.failure_count + 1,
                     progress := s.progress + 1 }

/-- Aggregate statistics effect of `HttpBenchmark.run` (lines 76-83): one
`make_request` per work item, each update applied atomically to the shared
`Stats` (single-threaded asyncio interleaves whole update blocks).  The list
`envs` carries one environment per launched task; since every update is an
atomic read-modify-write of the accumulator, any interleaving of completions
is some ordering of `envs`, and the theorems below quantify over all such
lists. -/
def run_items (data_pool : List String) (envs : List ItemEnv) (s : Stats) : Stats :=
  envs.foldl (fun st e => make_request data_pool e.choice e.net e.elapsed st) s

/-- Derived metrics computed by `HttpBenchmark.run_benchmark` (lines 85-114)
from the final statistics and the measured wall-clock duration. -/
structure Report where
  qps : ℚ
  average_time : ℚ
deriving DecidableEq

/-- Embedding of the metric computation in `run_benchmark` (lines 90-99):
`qps = completed_requests / total_duration` when the duration is positive,
else `0`; `average_time = total_time / success_count` when `success_count`
is positive, else `0`. -/
def run_benchmark_report (s : Stats) (total_duration : ℚ) : Report :=
  { qps := if 0 < total_duration then (s.completed_requests : ℚ) / total_duration else 0,
    average_time :=
      if 0 < s.success_count then s.total_time / (s.success_count : ℚ) else 0 }

/-- Predicate on a work item's environment: the HTTP call returned a response
(of any status), i.e. neither the empty-pool exception nor a network
exception occurred. -/
def gotResponseB (data_pool : List String) (net : NetResult) : Bool :=
  (!data_pool.isEmpty) &&
    (match net with
     | NetResult.response _ => true
     | NetResult.netError => false)

/-- Predicate on a work item's environment: the HTTP call returned status
200 (the success classification of line 63). -/
def successB (data_pool : List String) (net : NetResult) : Bool :=
  (!data_pool.isEmpty) &&
    (match net with
     | NetResult.response status => status = 200
     | NetResult.netError => false)

/-- Sum of the elapsed durations of the work items whose call returned a
response (any status): by lines 59-61 exactly these contribute to
`total_time`. -/
def sum_response_durations (data_pool : List String) (envs : List ItemEnv) : ℚ :=
  ((envs.filter (fun e => gotResponseB data_pool e.net)).map ItemEnv.elapsed).sum

/-- Quantity named by the spec: the sum of elapsed durations of the
successful (HTTP 200) calls only.  Written from the spec's words, for
comparison with the code's `total_time`. -/
def spec_sum_success_durations (data_pool : List String) (envs : List ItemEnv) : ℚ :=
  ((envs.filter (fun e => successB data_pool e.net)).map ItemEnv.elapsed).sum

/-- Observable steps of one work item's `try` body. -/
inductive Step where
  | recordStart
  | samplePrompt
  | buildPayload
  | httpPost
  | recordEnd
deriving DecidableEq

/-- Statement order of the `try` body of `make_request` (lines 45-57) on a
work item whose HTTP call completes: `start_time = time.monotonic()` first
(line 45), then `prompt = self.get_random_prompt()` (line 48), then the
`data = {...}` payload literal (lines 49-54), then
`await client.post(self.url, json=data)` (line 56), then
`end_time = time.monotonic()` (line 57). -/
def make_request_steps : List Step :=
  [Step.recordStart, Step.samplePrompt, Step.buildPayload, Step.httpPost, Step.recordEnd]

/-- Step order stated by the spec, written from its words: sample the prompt
and build the payload first, and only then record the start timestamp, so
that the measured interval covers the HTTP call alone.  For comparison with
`make_request_steps`. -/
def spec_step_order : List Step :=
  [Step.samplePrompt, Step.buildPayload, Step.recordStart, Step.httpPost, Step.recordEnd]

/-- Steps falling inside the measured interval: those strictly after
`recordStart` and strictly before `recordEnd` in the item's step list. -/
def measured_steps (steps : List Step) : List Step :=
  ((steps.dropWhile (fun x => x ≠ Step.recordStart)).drop 1).takeWhile
    (fun x => x ≠ Step.recordEnd)

/-- JSON values appearing in the request payload. -/
inductive JsonVal where
  | str (s : String)
  | jbool (b : Bool)
  | num (q : ℚ)
deriving DecidableEq

/-- Request payload built at lines 49-54, as an ordered association list:
`{"prompt": prompt, "stream": False, "temperature": 0.6, "max_tokens": 9999}`. -/
def build_payload (prompt : String) : List (String × JsonVal) :=
  [("prompt", JsonVal.str prompt),
   ("stream", JsonVal.jbool false),
   ("temperature", JsonVal.num 0.6),
   ("max_tokens", JsonVal.num 9999)]

/-- Total request timeout configured at line 78: `httpx.Timeout(60.0)`
seconds, applied to every POST of the run. -/
def request_timeout : ℚ := 60

/-- Abstract state of the concurrency gate of `run`/`make_request`: the
semaphore counter (`asyncio.Semaphore(self.concurrency)`, line 77) and how
many of the launched tasks are in each phase.  `notStarted`: created (line
82) but still waiting at `async with semaphore` (line 43); `holding`: permit
acquired, executing the body before the POST resolves is split further into
`holding` (before the `await client.post` suspension) and `inCall` (POST
outstanding); `finished`: body left the `async with` block, permit
released. -/
structure SemState where
  permits : ℕ
  notStarted : ℕ
  holding : ℕ
  inCall : ℕ
  finished : ℕ
deriving DecidableEq

/-- Gate state when `run` starts: the semaphore holds `C` permits (line 77)
and all `N` tasks are launched immediately (lines 80-82), none yet admitted. -/
def initSemState (C N : ℕ) : SemState :=
  ⟨C, N, 0, 0, 0⟩

/-- Transitions of the concurrency gate.  `acquire`: a waiting task enters
`async with semaphore` when a permit is free (line 43).  `startCall`: an
admitted task reaches the `await client.post` suspension (line 56).
`finishCall`: the POST resolves (with any status) or raises, the body runs to
the end of the `async with` block, and the permit is released by the scoped
exit — unconditionally, exception or not.  `abortBeforeCall`: an exception
before the POST (such as the empty-pool `ValueError` of line 39) skips the
call; the `except`/`finally` blocks run and the scoped exit still releases
the permit. -/
inductive SemStep : SemState → SemState → Prop where
  | acquire (σ : SemState) :
      0 < σ.permits → 0 < σ.notStarted →
      SemStep σ ⟨σ.permits - 1, σ.notStarted - 1, σ.holding + 1, σ.inCall, σ.finished⟩
  | startCall (σ : SemState) :
      0 < σ.holding →
      SemStep σ ⟨σ.permits, σ.notStarted, σ.holding - 1, σ.inCall + 1, σ.finished⟩
  | finishCall (σ : SemState) :
      0 < σ.inCall →
      SemStep σ ⟨σ.permits + 1, σ.notStarted, σ.holding, σ.inCall - 1, σ.finished + 1⟩
  | abortBeforeCall (σ : SemState) :
      0 < σ.holding →
      SemStep σ ⟨σ.permits + 1, σ.notStarted, σ.holding - 1, σ.inCall, σ.finished + 1⟩

/-- Gate states reachable during a run with concurrency `C` and `N` launched
tasks. -/
inductive Reachable (C N : ℕ) : SemState → Prop where
  | init : Reachable C N (initSemState C N)
  | step {σ σ' : SemState} : Reachable C N σ → SemStep σ σ' → Reachable C N σ'

/-! Helper lemmas about the embedding. -/

theorem get_random_prompt_ok_mem {data_pool : List String} {choice : ℕ} {s : String}
    (h : get_random_prompt data_pool choice = Except.ok s) : s ∈ data_pool := by
  unfold get_random_prompt at h
  split at h
  · exact absurd h (by simp)
  · cases h
    exact List.get_mem _ _ _

theorem make_request_success_count (data_pool : List String) (choice : ℕ)
    (net : NetResult) (t : ℚ) (s : Stats) :
    (make_request data_pool choice net t s).success_count =
      s.success_count + (if successB data_pool net then 1 else 0) := by
  cases data_pool with
  | nil => cases net <;> simp [make_request, get_random_prompt, successB]
  | cons p ps =>
    cases net with
    | netError => simp [make_request, get_random_prompt, successB]
    | response status =>
      by_cases h : status = 200 <;>
        simp [make_request, get_random_prompt, successB, h]

theorem make_request_failure_count (data_pool : List String) (choice : ℕ)
    (net : NetResult) (t : ℚ) (s : Stats) :
    (make_request data_pool choice net t s).failure_count =
      s.failure_count + (if successB data_pool net then 0 else 1) := by
  cases data_pool with
  | nil => cases net <;> simp [make_request, get_random_prompt, successB]
  | cons p ps =>
    cases net with
    | netError => simp [make_request, get_random_prompt, successB]
    | response status =>
      by_cases h : status = 200 <;>
        simp [make_request, get_random_prompt, successB, h]

theorem make_request_completed (data_pool : List String) (choice : ℕ)
    (net : NetResult) (t : ℚ) (s : Stats) :
    (make_request data_pool choice net t s).completed_requests =
      s.completed_requests + (if gotResponseB data_pool net then 1 else 0) := by
  cases data_pool with
  | nil => cases net <;> simp [make_request, get_random_prompt, gotResponseB]
  | cons p ps =>
    cases net with
    | netError => simp [make_request, get_random_prompt, gotResponseB]
    | response status =>
      by_cases h : status = 200 <;>
        simp [make_request, get_random_prompt, gotResponseB, h]

theorem make_request_total_time (data_pool : List String) (choice : ℕ)
    (net : NetResult) (t : ℚ) (s : Stats) :
    (make_request data_pool choice net t s).total_time =
      s.total_time + (if gotResponseB data_pool net then t else 0) := by
  cases data_pool with
  | nil => cases net <;> simp [make_request, get_random_prompt, gotResponseB]
  | cons p ps =>
    cases net with
    | netError => simp [make_request, get_random_prompt, gotResponseB]
    | response status =>
      by_cases h : status = 200 <;>
        simp [make_request, get_random_prompt, gotResponseB, h]

theorem make_request_progress (data_pool : List String) (choice : ℕ)
    (net : NetResult) (t : ℚ) (s : Stats) :
    (make_request data_pool choice net t s).progress = s.progress + 1 := by
  cases data_pool with
  | nil => cases net <;> simp [make_request, get_random_prompt]
  | cons p ps =>
    cases net with
    | netError => simp [make_request, get_random_prompt]
    | response status =>
      by_cases h : status = 200 <;> simp [make_request, get_random_prompt, h]

theorem make_request_exception (data_pool : List String) (choice : ℕ)
    (net : NetResult) (t : ℚ) (s : Stats)
    (h : data_pool = [] ∨ net = NetResult.netError) :
    make_request data_pool choice net t s =
      { s with failure_count := s.failure_count + 1, progress := s.progress + 1 } := by
  rcases h with h | h
  · subst h; cases net <;> simp [make_request, get_random_prompt]
  · subst h
    cases data_pool <;> simp [make_request, get_random_prompt]

theorem run_items_cons (data_pool : List String) (e : ItemEnv) (envs : List ItemEnv)
    (s : Stats) :
    run_items data_pool (e :: envs) s =
      run_items data_pool envs (make_request data_pool e.choice e.net e.elapsed s) := rfl

theorem run_items_success_count (data_pool : List String) (envs : List ItemEnv) :
    ∀ s : Stats, (run_items data_pool envs s).success_count =
      s.success_count + (envs.filter (fun e => successB data_pool e.net)).length := by
  induction envs with
  | nil => intro s; simp [run_items]
  | cons e es ih =>
    intro s
    rw [run_items_cons, ih, make_request_success_count]
    cases hb : successB data_pool e.net <;>
      simp [List.filter_cons, hb]
    omega

theorem run_items_classified (data_pool : List String) (envs : List ItemEnv) :
    ∀ s : Stats, (run_items data_pool envs s).success_count +
        (run_items data_pool envs s).failure_count =
      s.success_count + s.failure_count + envs.length := by
  induction envs with
  | nil => intro s; simp [run_items]
  | cons e es ih =>
    intro s
    rw [run_items_cons, ih, make_request_success_count, make_request_failure_count]
    cases hb : successB data_pool e.net <;> simp [hb] <;> omega

theorem run_items_completed (data_pool : List String) (envs : List ItemEnv) :
    ∀ s : Stats, (run_items data_pool envs s).completed_requests =
      s.completed_requests + (envs.filter (fun e => gotResponseB data_pool e.net)).length := by
  induction envs with
  | nil => intro s; simp [run_items]
  | cons e es ih =>
    intro s
    rw [run_items_cons, ih, make_request_completed]
    cases hb : gotResponseB data_pool e.net <;>
      simp [List.filter_cons, hb]
    omega

theorem run_items_total_time (data_pool : List String) (envs : List ItemEnv) :
    ∀ s : Stats, (run_items data_pool envs s).total_time =
      s.total_time + sum_response_durations data_pool envs := by
  induction envs with
  | nil => intro s; simp [run_items, sum_response_durations]
  | cons e es ih =>
    intro s
    rw [run_items_cons, ih, make_request_total_time]
    cases hb : gotResponseB data_pool e.net <;>
      simp [sum_response_durations, List.filter_cons, hb]
    ring

theorem run_items_progress (data_pool : List String) (envs : List ItemEnv) :
    ∀ s : Stats, (run_items data_pool envs s).progress = s.progress + envs.length := by
  induction envs with
  | nil => intro s; simp [run_items]
  | cons e es ih =>
    intro s
    rw [run_items_cons, ih, make_request_progress]
    simp [List.length_cons]
    omega

theorem load_dataset_eq_filter_map (lines : List String) :
    load_dataset lines = (lines.map pyStrip).filter (fun s => !s.isEmpty) := by
  induction lines with
  | nil => simp [load_dataset]
  | cons line rest ih =>
    by_cases h : (pyStrip line).isEmpty <;>
      simp [load_dataset, List.filter_cons, h, ih]

theorem load_dataset_mem_ne_empty {lines : List String} {s : String}
    (h : s ∈ load_dataset lines) : s ≠ "" := by
  rw [load_dataset_eq_filter_map] at h
  have hf := List.of_mem_filter h
  intro hs
  subst hs
  simp at hf
  exact absurd hf (by decide)

theorem reachable_invariant {C N : ℕ} {σ : SemState} (h : Reachable C N σ) :
    σ.permits + σ.holding + σ.inCall = C ∧
      σ.notStarted + σ.holding + σ.inCall + σ.finished = N := by
  induction h with
  | init => simp [initSemState]
  | step _ hstep ih =>
    cases hstep <;> simp_all <;> omega

/-! Claim theorems. -/

/-- C1, counterexample: a run of one work item whose POST raises a network
exception ends with `success_count + failure_count = 1` but
`completed_requests = 0`, so `completed_requests` equals neither
`success_count + failure_count` nor the configured total of 1, even though
the item reached a terminal (exception-failure) outcome. -/
theorem completed_count_counterexample :
    ¬ ((run_items ["p"] [⟨0, NetResult.netError, 0⟩] initStats).completed_requests =
          (run_items ["p"] [⟨0, NetResult.netError, 0⟩] initStats).success_count +
            (run_items ["p"] [⟨0, NetResult.netError, 0⟩] initStats).failure_count ∧
        (run_items ["p"] [⟨0, NetResult.netError, 0⟩] initStats).completed_requests = 1) := by
  decide

/-- C1, amended: at run end `success_count + failure_count` equals the number
of launched work items (every item is classified exactly once, none dropped
or double-counted there), but `completed_requests` counts only the items
whose HTTP call returned a response: exception-path items increment
`failure_count` without incrementing `completed_requests`.
`completed_requests` equals the configured total exactly when every item
received a response. -/
theorem completed_count_amended (data_pool : List String) (envs : List ItemEnv) :
    (run_items data_pool envs initStats).success_count +
        (run_items data_pool envs initStats).failure_count = envs.length ∧
    (run_items data_pool envs initStats).completed_requests =
        (envs.filter (fun e => gotResponseB data_pool e.net)).length ∧
    ((∀ e ∈ envs, gotResponseB data_pool e.net = true) →
        (run_items data_pool envs initStats).completed_requests = envs.length) := by
  refine ⟨?_, ?_, ?_⟩
  · simpa [initStats] using run_items_classified data_pool envs initStats
  · simpa [initStats] using run_items_completed data_pool envs initStats
  · intro hall
    have h := run_items_completed data_pool envs initStats
    rw [List.filter_eq_self.mpr hall] at h
    simpa [initStats] using h

/-- C1, witness for the amended claim: in a run of one work item that
receives a response, `completed_requests` equals the number of items. -/
theorem completed_count_amended_witness :
    (run_items ["p"] [⟨0, NetResult.response 200, 1⟩] initStats).completed_requests =
      ([⟨0, NetResult.response 200, 1⟩] : List ItemEnv).length :=
  (completed_count_amended ["p"] [⟨0, NetResult.response 200, 1⟩]).2.2 (by decide)

/-- C2, counterexample: with one call answered 500 after 3 seconds and one
answered 200 after 1 second, the code reports
`average_time = total_time / success_count = (3 + 1) / 1 = 4`, not the
spec's `sum_of_successful_durations / success_count = 1 / 1 = 1`: the
non-200 call's duration entered the numerator (line 60 runs before the
status check of line 63). -/
theorem average_time_counterexample :
    (run_benchmark_report
        (run_items ["p"]
          [⟨0, NetResult.response 500, 3⟩, ⟨0, NetResult.response 200, 1⟩]
          initStats) 1).average_time ≠
      spec_sum_success_durations ["p"]
          [⟨0, NetResult.response 500, 3⟩, ⟨0, NetResult.response 200, 1⟩] /
        ((run_items ["p"]
            [⟨0, NetResult.response 500, 3⟩, ⟨0, NetResult.response 200, 1⟩]
            initStats).success_count : ℚ) := by
  have hs : run_items ["p"]
      [⟨0, NetResult.response 500, 3⟩, ⟨0, NetResult.response 200, 1⟩] initStats =
      { success_count := 1, failure_count := 1, total_time := 4,
        completed_requests := 2, progress := 2 } := by
    simp [run_items, make_request, get_random_prompt, initStats]
    norm_num
  have hsum : spec_sum_success_durations ["p"]
      [⟨0, NetResult.response 500, 3⟩, ⟨0, NetResult.response 200, 1⟩] = 1 := by
    simp [spec_sum_success_durations, successB, List.filter_cons]
  rw [hs, hsum]
  simp [run_benchmark_report]

/-- C2, amended: `average_response_time` is `total_time / success_count`
when `success_count > 0` and exactly `0` otherwise, where `total_time` sums
the elapsed durations of every call that received an HTTP response — both
200 and non-200 responses.  Only exception-path calls are excluded from the
numerator; the denominator counts successes only. -/
theorem average_time_amended (data_pool : List String) (envs : List ItemEnv) (d : ℚ) :
    (0 < (run_items data_pool envs initStats).success_count →
      (run_benchmark_report (run_items data_pool envs initStats) d).average_time =
        sum_response_durations data_pool envs /
          ((run_items data_pool envs initStats).success_count : ℚ)) ∧
    ((run_items data_pool envs initStats).success_count = 0 →
      (run_benchmark_report (run_items data_pool envs initStats) d).average_time = 0) := by
  constructor
  · intro h
    simp only [initStats] at h ⊢
    simp [run_benchmark_report, h, run_items_total_time]
  · intro h
    simp [run_benchmark_report, h]

/-- C2, witness for the amended claim at a run with one successful call. -/
theorem average_time_amended_witness :
    (run_benchmark_report
        (run_items ["p"] [⟨0, NetResult.response 200, 1⟩] initStats) 1).average_time =
      sum_response_durations ["p"] [⟨0, NetResult.response 200, 1⟩] /
        ((run_items ["p"] [⟨0, NetResult.response 200, 1⟩] initStats).success_count : ℚ) :=
  (average_time_amended ["p"] [⟨0, NetResult.response 200, 1⟩] 1).1 (by decide)

/-- C3, counterexample: the statement order of the work-item body is not the
order claimed (sample, build payload, record start, POST, record end) — the
code records the start timestamp first, at line 45, before sampling the
prompt at line 48. -/
theorem step_order_counterexample : make_request_steps ≠ spec_step_order := by
  decide

/-- C3, amended: the work item records the start timestamp first, then
samples the prompt, builds the payload, issues the POST, and records the end
timestamp last — so the measured interval (between the two timestamps)
contains the prompt sampling and payload construction in addition to the
HTTP call, and the elapsed duration does not measure the HTTP call alone. -/
theorem step_order_amended :
    make_request_steps.head? = some Step.recordStart ∧
    measured_steps make_request_steps =
      [Step.samplePrompt, Step.buildPayload, Step.httpPost] ∧
    make_request_steps.getLast? = some Step.recordEnd := by
  decide

/-- C4: `get_random_prompt` fails if and only if the pool is empty, the
check running on every call; on a non-empty pool every call returns a member
of the pool, and a pool built by `load_dataset` never yields an empty
string, since loading strips lines and drops the blank ones. -/
theorem get_random_prompt_spec (data_pool : List String) (choice : ℕ) :
    ((∃ msg, get_random_prompt data_pool choice = Except.error msg) ↔ data_pool = []) ∧
    (∀ s, get_random_prompt data_pool choice = Except.ok s → s ∈ data_pool) ∧
    (∀ lines s, get_random_prompt (load_dataset lines) choice = Except.ok s → s ≠ "") := by
  refine ⟨⟨?_, ?_⟩, ?_, ?_⟩
  · rintro ⟨msg, h⟩
    by_contra hne
    simp [get_random_prompt, hne] at h
  · intro h
    subst h
    exact ⟨_, rfl⟩
  · intro s h
    exact get_random_prompt_ok_mem h
  · intro lines s h
    exact load_dataset_mem_ne_empty (get_random_prompt_ok_mem h)

/-- C4, witness: on the pool loaded from the example dataset, a concrete
call returns a member of the pool. -/
theorem get_random_prompt_spec_witness :
    ("a" : String) ∈ ["a"] :=
  (get_random_prompt_spec ["a"] 0).2.1 "a" rfl

/-- C5: `load_dataset` maps each line to its stripped form, keeps only the
lines that are non-empty after stripping, preserves their order, and on the
example file with lines "hello", "", "  world  ", "foo" produces exactly
["hello", "world", "foo"]; every surviving entry is a non-empty string. -/
theorem load_dataset_spec :
    load_dataset ["hello", "", "  world  ", "foo"] = ["hello", "world", "foo"] ∧
    (∀ lines, load_dataset lines = (lines.map pyStrip).filter (fun s => !s.isEmpty)) ∧
    (∀ lines s, s ∈ load_dataset lines → s ≠ "") := by
  refine ⟨by decide, load_dataset_eq_filter_map, ?_⟩
  intro lines s h
  exact load_dataset_mem_ne_empty h

/-- C5, witness: a concrete surviving entry of the example dataset is
non-empty. -/
theorem load_dataset_spec_witness : ("world" : String) ≠ "" :=
  load_dataset_spec.2.2 ["hello", "", "  world  ", "foo"] "world" (by decide)

/-- C6: QPS is `completed_requests / wall_clock_duration` when the duration
is positive and exactly `0` when the duration is `0` (a rational in every
case — no infinity, no division fault), and its numerator is the
completed-request counter — the number of items whose call returned a
response — not the configured total. -/
theorem qps_spec (data_pool : List String) (envs : List ItemEnv) (d : ℚ) :
    (0 < d →
      (run_benchmark_report (run_items data_pool envs initStats) d).qps =
        ((run_items data_pool envs initStats).completed_requests : ℚ) / d) ∧
    (d = 0 → (run_benchmark_report (run_items data_pool envs initStats) d).qps = 0) ∧
    (run_items data_pool envs initStats).completed_requests =
      (envs.filter (fun e => gotResponseB data_pool e.net)).length := by
  refine ⟨?_, ?_, ?_⟩
  · intro h
    simp [run_benchmark_report, h]
  · intro h
    subst h
    simp [run_benchmark_report]
  · simpa [initStats] using run_items_completed data_pool envs initStats

/-- C6, witness: QPS of a concrete one-item run over a duration of 2. -/
theorem qps_spec_witness :
    (run_benchmark_report
        (run_items ["p"] [⟨0, NetResult.response 200, 1⟩] initStats) 2).qps =
      ((run_items ["p"] [⟨0, NetResult.response 200, 1⟩] initStats).completed_requests : ℚ) / 2 :=
  (qps_spec ["p"] [⟨0, NetResult.response 200, 1⟩] 2).1 (by norm_num)

/-- C7: exceptions inside a work item are contained at the item boundary: a
run over any list of item environments (empty pool, network exceptions, any
statuses) classifies every launched item exactly once, so
`success_count + failure_count` equals the number of items — no exception
aborts a sibling item or the run — and an item on which an exception is
raised (empty pool or failed call) is classified by incrementing
`failure_count`.  Containment itself is visible in the embedding's type:
`make_request` returns `Stats`, never an error. -/
theorem exception_containment (data_pool : List String) (envs : List ItemEnv)
    (choice : ℕ) (net : NetResult) (t : ℚ) (s : Stats) :
    ((run_items data_pool envs initStats).success_count +
        (run_items data_pool envs initStats).failure_count = envs.length) ∧
    ((data_pool = [] ∨ net = NetResult.netError) →
      (make_request data_pool choice net t s).failure_count = s.failure_count + 1) := by
  constructor
  · simpa [initStats] using run_items_classified data_pool envs initStats
  · intro h
    rw [make_request_exception data_pool choice net t s h]

/-- C7, witness: an empty-pool exception item increments the failure
count. -/
theorem exception_containment_witness :
    (make_request [] 0 NetResult.netError 0 initStats).failure_count =
      initStats.failure_count + 1 :=
  (exception_containment [] [] 0 NetResult.netError 0 initStats).2 (Or.inl rfl)

/-- C8: in every state reachable by the concurrency gate of a run with
`concurrency = C`, at most `C` work items have an outstanding HTTP call;
moreover `permits + holding + inCall = C` in every reachable state (no
permit is ever leaked, since release happens on success, non-200 and
exception paths alike), so when every item has finished the semaphore is
back to `C` permits. -/
theorem semaphore_bound {C N : ℕ} {σ : SemState} (h : Reachable C N σ) :
    σ.inCall ≤ C ∧
    σ.permits + σ.holding + σ.inCall = C ∧
    (σ.notStarted = 0 ∧ σ.holding = 0 ∧ σ.inCall = 0 → σ.permits = C) := by
  obtain ⟨h1, _h2⟩ := reachable_invariant h
  exact ⟨by omega, h1, by omega⟩

/-- C8, witness: a concrete reachable state of a run with `C = 2`, `N = 3`
(one task admitted past the gate) has at most 2 outstanding calls. -/
theorem semaphore_bound_witness :
    (⟨1, 2, 1, 0, 0⟩ : SemState).inCall ≤ 2 :=
  (semaphore_bound
    (Reachable.step Reachable.init
      (SemStep.acquire (initSemState 2 3) (by decide) (by decide)))).1

/-- C9: the request payload of every work item carries exactly the four
fields prompt (the sampled string), stream = false, temperature = 3/5 (the
literal 0.6) and max_tokens = 9999, in that order and with no other keys;
the configured total request timeout is 60 seconds; and the work-item body
contains exactly one HTTP POST. -/
theorem payload_spec (prompt : String) :
    (build_payload prompt).lookup "prompt" = some (JsonVal.str prompt) ∧
    (build_payload prompt).lookup "stream" = some (JsonVal.jbool false) ∧
    (build_payload prompt).lookup "temperature" = some (JsonVal.num (3 / 5)) ∧
    (build_payload prompt).lookup "max_tokens" = some (JsonVal.num 9999) ∧
    (build_payload prompt).map Prod.fst = ["prompt", "stream", "temperature", "max_tokens"] ∧
    request_timeout = 60 ∧
    make_request_steps.count Step.httpPost = 1 := by
  refine ⟨rfl, rfl, ?_, rfl, rfl, rfl, by decide⟩
  have : (0.6 : ℚ) = 3 / 5 := by norm_num
  simp [build_payload, List.lookup, this]

/-- C10: a work item that terminates through the exception path (empty pool
before the call, or an exception from the call itself) increments
`failure_count` by one and advances the progress indicator by one, and
leaves `completed_requests`, `success_count` and `total_time` unchanged. -/
theorem exception_frame (data_pool : List String) (choice : ℕ) (net : NetResult)
    (t : ℚ) (s : Stats)
    (h : data_pool = [] ∨ net = NetResult.netError) :
    (make_request data_pool choice net t s).failure_count = s.failure_count + 1 ∧
    (make_request data_pool choice net t s).completed_requests = s.completed_requests ∧
    (make_request data_pool choice net t s).success_count = s.success_count ∧
    (make_request data_pool choice net t s).total_time = s.total_time ∧
    (make_request data_pool choice net t s).progress = s.progress + 1 := by
  rw [make_request_exception data_pool choice net t s h]
  exact ⟨rfl, rfl, rfl, rfl, rfl⟩

/-- C10, witness: an empty-pool exception item (even one whose network would
have answered 200) leaves the completed-request counter unchanged. -/
theorem exception_frame_witness :
    (make_request [] 0 (NetResult.response 200) 0 initStats).completed_requests =
      initStats.completed_requests :=
  (exception_frame [] 0 (NetResult.response 200) 0 initStats (Or.inl rfl)).2.1

end ModelStress
